import Mathlib

/-!
Verification of the publish orchestration engine in `publish.py`.

The embedding translates the pure core of the program:
  * the status ledger (`load_status`/`save_status` become explicit state
    passing; the JSON dict `status["published"]` becomes an association
    list keyed by day number),
  * `mark_published`, `is_published`, `get_published_platforms`,
  * the schedule resolver `get_publish_date` (dates become day ordinals,
    adding a timedelta of `n` days becomes addition of `n`),
  * the due-set selector `get_todays_articles` (its single loop with an
    `if pub_date == today / elif pub_date < today and not is_published`
    branch is written as the two filters it computes, concatenated in the
    order the loop returns them),
  * the dispatcher `publish_article`, with the per-target publish clients
    abstracted as an oracle `String → Option String` (each
    `publish_to_X(article, config) or ""` returns a url or `None`),
  * an exception-aware variant `publish_article_exc` in the `Except`
    monad, together with `publish_to_medium`, whose `requests.post` call
    is not inside any `try/except` in the source, so a raised network
    error propagates out of the dispatch loop, and
  * the per-day line classification of the `cmd_status` report.
`datetime.now()` is passed in as an explicit `now : Nat` parameter and
"today" as an explicit ordinal.
-/

/-- Python dict lookup `d.get(k)` on an association list. -/
def dictGet {α β : Type} [DecidableEq α] : List (α × β) → α → Option β
  | [], _ => none
  | (k', v) :: rest, k => if k' = k then some v else dictGet rest k

/-- Python dict assignment `d[k] = v` on an association list: replaces the
binding of `k` when present, appends it otherwise. -/
def dictSet {α β : Type} [DecidableEq α] : List (α × β) → α → β → List (α × β)
  | [], k, v => [(k, v)]
  | (k', v') :: rest, k, v =>
    if k' = k then (k, v) :: rest else (k', v') :: dictSet rest k v

/-- One entry of `status["published"]`: the JSON object written by
`mark_published` (`platforms`, `published_at`, `urls`). -/
structure PubRecord where
  platforms : List String
  published_at : Nat
  urls : List (String × String)
deriving Repr, DecidableEq

/-- The status ledger (`logs/publish_status.json`): only the `published`
dict matters to the engine (`errors` is never read). -/
structure Status where
  published : List (Nat × PubRecord)
deriving Repr, DecidableEq

/-- One entry of `articles.json`. `platforms` is `Option` because the code
reads it with `article.get("platforms")` (no default) in
`get_todays_articles` and with default `["devto", "hashnode", "linkedin"]`
in `publish_article`. -/
structure Article where
  day : Nat
  title : String
  body : String
  tags : List String
  platforms : Option (List String)
deriving Repr, DecidableEq

/-- The schedule part of `get_config()`: `start_date` as a day ordinal and
whether `FREQUENCY` is `"every_other_day"`. -/
structure Config where
  start_date : Nat
  every_other_day : Bool
deriving Repr, DecidableEq

/-- `mark_published(day_num, platforms, urls)`: overwrites
`status["published"][str(day_num)]` with a fresh record whose
`published_at` is `datetime.now()` (passed here as `now`). -/
def mark_published (status : Status) (day_num : Nat) (platforms : List String)
    (urls : List (String × String)) (now : Nat) : Status :=
  { published := dictSet status.published day_num
      { platforms := platforms, published_at := now, urls := urls } }

/-- `is_published(day_num, platforms)`: `False` when the day has no record;
otherwise, when `platforms` is truthy (a non-empty list), checks that every
requested platform is in the record's `platforms` list; a falsy `platforms`
(`None` or `[]`) yields `True`. -/
def is_published (status : Status) (day_num : Nat)
    (platforms : Option (List String)) : Bool :=
  match dictGet status.published day_num with
  | none => false
  | some r =>
    match platforms with
    | some ps => if ps.isEmpty then true else ps.all (fun p => r.platforms.contains p)
    | none => true

/-- `get_published_platforms(day_num)`: the record's `platforms` list, or
`[]` when the day has no record. -/
def get_published_platforms (status : Status) (day_num : Nat) : List String :=
  match dictGet status.published day_num with
  | some r => r.platforms
  | none => []

/-- `get_publish_date(day_num, config)`: `offset = (day_num - 1) // 2`,
doubled when the frequency is every-other-day; the result is the start
date plus a timedelta of `offset` days, i.e. the start ordinal plus the
offset. -/
def get_publish_date (day_num : Nat) (config : Config) : Nat :=
  let offset := (day_num - 1) / 2
  let offset2 := if config.every_other_day then offset * 2 else offset
  config.start_date + offset2

/-- The catch-up branch of the loop in `get_todays_articles`:
`pub_date < today and not is_published(article["day"], article.get("platforms"))`. -/
def catchup_filter (articles : List Article) (config : Config) (status : Status)
    (today : Nat) : List Article :=
  articles.filter (fun a =>
    decide (get_publish_date a.day config < today) &&
      !(is_published status a.day a.platforms))

/-- The today branch of the loop in `get_todays_articles`:
`pub_date == today`, with no ledger check. -/
def todays_filter (articles : List Article) (config : Config) (today : Nat) :
    List Article :=
  articles.filter (fun a => get_publish_date a.day config == today)

/-- `get_todays_articles(articles, config)`: the loop appends each article
to `todays_articles` when its date is today, else to `catchup_articles`
when its date is past and `is_published` denies it, and returns
`catchup_articles + todays_articles`. -/
def get_todays_articles (articles : List Article) (config : Config)
    (status : Status) (today : Nat) : List Article :=
  catchup_filter articles config status today ++ todays_filter articles config today

/-- The result of one `publish_article` call: the ledger it leaves behind
and the list of platforms its loop attempted. -/
structure DispatchOut where
  status : Status
  attempted : List String
deriving Repr, DecidableEq

/-- The platform default used by `publish_article`:
`article.get("platforms", ["devto", "hashnode", "linkedin"])`. -/
def defaultPlatforms : List String := ["devto", "hashnode", "linkedin"]

/-- The `for platform in remaining_platforms` loop of `publish_article`:
starting from the day's existing urls, each platform's client is called
(`url = publish_to_X(article, config) or ""`) and `results[platform] = url`
is recorded only when `url` is truthy. -/
def dispatch_results (capResult : String → Option String)
    (remaining : List String) (existing_urls : List (String × String)) :
    List (String × String) :=
  remaining.foldl
    (fun acc p =>
      match capResult p with
      | some url => if url.isEmpty then acc else dictSet acc p url
      | none => acc)
    existing_urls

/-- `publish_article(article, config, dry_run)` with the per-platform
clients abstracted as `capResult : platform → url or None`. Mirrors the
source: the early `is_published(day, platforms) and not dry_run` skip, the
`remaining_platforms` computation from `get_published_platforms`, the
dry-run return before any attempt, the loop over the remaining platforms
(`dispatch_results`), and the unconditional `mark_published(day,
platforms, results)` at the end — note the source passes the FULL
`platforms` list to `mark_published`, not the succeeded subset. -/
def publish_article (status : Status) (article : Article)
    (capResult : String → Option String) (dry_run : Bool) (now : Nat) :
    DispatchOut :=
  let day := article.day
  let platforms := article.platforms.getD defaultPlatforms
  if is_published status day (some platforms) && !dry_run then
    { status := status, attempted := [] }
  else
    let already_published := get_published_platforms status day
    let remaining_platforms :=
      platforms.filter (fun p => !(already_published.contains p))
    if dry_run then
      { status := status, attempted := [] }
    else
      let existing_urls :=
        match dictGet status.published day with
        | some r => r.urls
        | none => []
      let results := dispatch_results capResult remaining_platforms existing_urls
      { status := mark_published status day platforms results now,
        attempted := remaining_platforms }

/-- Outcome of one HTTP call made with the `requests` library: either the
call raises (connection error, timeout, ...) or it returns a response,
abstracted as a status code and the payload field the caller extracts. -/
inductive HttpOut where
  | raises (msg : String)
  | resp (status : Nat) (payload : String)
deriving Repr, DecidableEq

/-- `get_medium_user_id(token)`: its whole body is inside `try/except`, so
a raised network error is caught and `None` is returned; a 200 response
yields the user id, any other status yields `None`. -/
def get_medium_user_id (http_get : HttpOut) : Option String :=
  match http_get with
  | .raises _ => none
  | .resp st body => if st = 200 then some body else none

/-- `publish_to_medium(article, config)`: skips (returns `None`) when
`MEDIUM_TOKEN` is empty; resolves the user id (via the guarded
`get_medium_user_id` when `MEDIUM_USER_ID` is unset); then issues
`requests.post` — which is NOT inside any `try/except`, so a raised
network error propagates (`Except.error`); a 200/201 response returns the
post url, any other status returns `None`. -/
def publish_to_medium (medium_token medium_user_id : String)
    (http_get http_post : HttpOut) : Except String (Option String) :=
  if medium_token.isEmpty then .ok none
  else
    let user_id := if medium_user_id.isEmpty
      then get_medium_user_id http_get else some medium_user_id
    match user_id with
    | none => .ok none
    | some _ =>
      match http_post with
      | .raises e => .error e
      | .resp st url => if st = 200 || st = 201 then .ok (some url) else .ok none

/-- The `for platform in remaining_platforms` loop of `publish_article`,
with each client call modelled in `Except` so that a client that raises
aborts the loop (the loop body has no `try/except`): on a normal return
`url = ... or ""` is recorded into `results` only when truthy. -/
def dispatch_loop_exc (capE : String → Except String (Option String)) :
    List String → List (String × String) → Except String (List (String × String))
  | [], acc => .ok acc
  | p :: rest, acc =>
    match capE p with
    | .error e => .error e
    | .ok u =>
      let url := u.getD ""
      dispatch_loop_exc capE rest (if url.isEmpty then acc else dictSet acc p url)

/-- `publish_article` with the client calls in `Except`, exactly as the
source behaves when a client function raises: nothing in `publish_article`
catches, so the exception escapes the dispatcher, the remaining sibling
targets are never attempted, and `mark_published` is never reached. -/
def publish_article_exc (status : Status) (article : Article)
    (capE : String → Except String (Option String)) (dry_run : Bool)
    (now : Nat) : Except String DispatchOut :=
  let day := article.day
  let platforms := article.platforms.getD defaultPlatforms
  if is_published status day (some platforms) && !dry_run then
    .ok { status := status, attempted := [] }
  else
    let already_published := get_published_platforms status day
    let remaining_platforms :=
      platforms.filter (fun p => !(already_published.contains p))
    if dry_run then
      .ok { status := status, attempted := [] }
    else
      let existing_urls :=
        match dictGet status.published day with
        | some r => r.urls
        | none => []
      match dispatch_loop_exc capE remaining_platforms existing_urls with
      | .error e => .error e
      | .ok results =>
        .ok { status := mark_published status day platforms results now,
              attempted := remaining_platforms }

/-- The four per-day markers printed by `cmd_status`: ✅ published when the
day has any entry in `status["published"]`, otherwise ⚠️ overdue, 📌 today
or ⬜ upcoming according to the scheduled date. -/
inductive StatusMarker where
  | published
  | overdue
  | todayDue
  | upcoming
deriving Repr, DecidableEq

/-- The per-day line classification of `cmd_status`: `if day_str in
published` print ✅; else compare the scheduled date with today and print
the overdue / today / upcoming marker. -/
def cmd_status_marker (status : Status) (config : Config) (today : Nat)
    (a : Article) : StatusMarker :=
  if (dictGet status.published a.day).isSome then .published
  else if get_publish_date a.day config < today then .overdue
  else if get_publish_date a.day config = today then .todayDue
  else .upcoming

/-- Day ordinal within 2026 (not a leap year) of a given month and day:
the cumulative number of days before the month plus the day of month, so
adding n calendar days to a 2026 date adds n to this ordinal. -/
def date2026 (month day : Nat) : Nat :=
  [0, 0, 31, 59, 90, 120, 151, 181, 212, 243, 273, 304, 334].getD month 0 + day

/-- The example configuration of the spec's schedule property: start date
2026-02-11, frequency every-other-day. -/
def eodConfig : Config := { start_date := date2026 2 11, every_other_day := true }

/-! Concrete fixtures used to evaluate the embedded code at specific
inputs (witnesses and counterexamples). -/

/-- A fresh ledger: no day has any record. -/
def emptyStatus : Status := { published := [] }

/-- A day-1 article targeting medium and devto. -/
def artMD : Article :=
  { day := 1, title := "t", body := "b", tags := ["tag"],
    platforms := some ["medium", "devto"] }

/-- Client oracle where the medium attempt fails (returns `None`) and the
devto attempt succeeds with a url. -/
def capBonly : String → Option String := fun p =>
  if p = "devto" then some "https://dev.to/x" else none

/-- Client oracle where every attempt fails (returns `None`). -/
def capNone : String → Option String := fun _ => none

/-- Exception-flavoured oracle: the medium client is configured and its
`requests.post` raises a connection error (via the embedded
`publish_to_medium`); the devto client would succeed. -/
def capMediumRaises : String → Except String (Option String) := fun p =>
  if p = "medium" then
    publish_to_medium "tok" "uid" (HttpOut.resp 200 "uid")
      (HttpOut.raises "ConnectionError")
  else if p = "devto" then .ok (some "https://dev.to/x")
  else .ok none

/-- A ledger where day 1 has a record listing only devto as done. -/
def stOneOfTwo : Status :=
  { published := [(1, { platforms := ["devto"], published_at := 100,
                        urls := [("devto", "u")] })] }

/-- A ledger where day 1 has a record listing medium and devto as done. -/
def stMDdone : Status :=
  { published := [(1, { platforms := ["medium", "devto"], published_at := 100,
                        urls := [("devto", "u")] })] }

/-- A day-4 article targeting devto and hashnode. -/
def artW : Article :=
  { day := 4, title := "t4", body := "b4", tags := [],
    platforms := some ["devto", "hashnode"] }

/-- A day-6 article targeting devto. -/
def artW6 : Article :=
  { day := 6, title := "t6", body := "b6", tags := [],
    platforms := some ["devto"] }

/-- A ledger where day 4 has a record listing only devto as done. -/
def stHalfDone : Status :=
  { published := [(4, { platforms := ["devto"], published_at := 100,
                        urls := [("devto", "u")] })] }

/-- A ledger where day 4 has a record listing devto and hashnode as done. -/
def stAllDone : Status :=
  { published := [(4, { platforms := ["devto", "hashnode"], published_at := 100,
                        urls := [("devto", "u"), ("hashnode", "v")] })] }

theorem dictGet_dictSet {α β : Type} [DecidableEq α]
    (l : List (α × β)) (k : α) (v : β) :
    dictGet (dictSet l k v) k = some v := by
  induction l with
  | nil => simp [dictSet, dictGet]
  | cons hd tl ih =>
    obtain ⟨k', v'⟩ := hd
    by_cases h : k' = k <;> simp [dictSet, dictGet, h, ih]

theorem is_published_true_of_done (status : Status) (d : Nat)
    (ps : List String) (hne : ps ≠ [])
    (h : ∀ p ∈ ps, p ∈ get_published_platforms status d) :
    is_published status d (some ps) = true := by
  obtain ⟨p0, hp0⟩ := List.exists_mem_of_ne_nil ps hne
  have hd0 := h p0 hp0
  unfold is_published
  unfold get_published_platforms at h hd0
  cases hdg : dictGet status.published d with
  | none => rw [hdg] at hd0; simp at hd0
  | some r =>
    rw [hdg] at h
    have hpe : ps.isEmpty = false := by
      cases ps with
      | nil => exact absurd rfl hne
      | cons x xs => rfl
    simp only [hpe, Bool.false_eq_true, if_false, List.all_eq_true]
    intro p hp
    exact List.elem_iff.mpr (h p hp)

theorem is_published_false_of_missing (status : Status) (d : Nat)
    (ps : List String) (p : String) (hp : p ∈ ps)
    (hmiss : p ∉ get_published_platforms status d) :
    is_published status d (some ps) = false := by
  unfold is_published
  unfold get_published_platforms at hmiss
  cases hdg : dictGet status.published d with
  | none => rfl
  | some r =>
    rw [hdg] at hmiss
    have hpe : ps.isEmpty = false := by
      cases ps with
      | nil => simp at hp
      | cons x xs => rfl
    simp only [hpe, Bool.false_eq_true, if_false]
    rw [Bool.eq_false_iff]
    intro hall
    rw [List.all_eq_true] at hall
    exact hmiss (List.elem_iff.mp (hall p hp))

theorem is_published_after_mark (s : Status) (d : Nat) (ps : List String)
    (us : List (String × String)) (now : Nat) :
    is_published (mark_published s d ps us now) d (some ps) = true := by
  unfold is_published
  have hget : dictGet (mark_published s d ps us now).published d
      = some { platforms := ps, published_at := now, urls := us } :=
    dictGet_dictSet s.published d _
  rw [hget]
  cases hpe : ps.isEmpty with
  | false =>
    simp only [hpe, Bool.false_eq_true, if_false, List.all_eq_true]
    intro p hp
    exact List.elem_iff.mpr hp
  | true => simp [hpe]

theorem publish_article_skip (s : Status) (a : Article)
    (cap : String → Option String) (now : Nat)
    (h : is_published s a.day (some (a.platforms.getD defaultPlatforms)) = true) :
    publish_article s a cap false now = { status := s, attempted := [] } := by
  unfold publish_article
  simp [h]

theorem publish_article_marks (s : Status) (a : Article)
    (cap : String → Option String) (now : Nat)
    (h : is_published s a.day (some (a.platforms.getD defaultPlatforms)) = false) :
    ∃ us, publish_article s a cap false now =
      { status := mark_published s a.day (a.platforms.getD defaultPlatforms) us now,
        attempted := (a.platforms.getD defaultPlatforms).filter
          (fun p => !((get_published_platforms s a.day).contains p)) } := by
  refine ⟨dispatch_results cap
      ((a.platforms.getD defaultPlatforms).filter
        (fun p => !((get_published_platforms s a.day).contains p)))
      (match dictGet s.published a.day with
        | some r => r.urls
        | none => []), ?_⟩
  unfold publish_article
  simp [h]

/-- C1. Partial-failure independence fails on the code: with targets
`["medium", "devto"]` where medium fails and devto succeeds, the single
`mark_published(day, platforms, results)` call writes the FULL configured
platform list into the record, so the ledger records the failed medium as
done alongside devto (whose location is the only url stored), and a
subsequent dispatch of the same item attempts nothing at all — not the
failed medium, contrary to the claim. -/
theorem c1_failed_target_marked_done :
    (get_published_platforms
        (publish_article emptyStatus artMD capBonly false 100).status 1
      = ["medium", "devto"]) ∧
    ((dictGet (publish_article emptyStatus artMD capBonly false 100).status.published 1).map
        PubRecord.urls = some [("devto", "https://dev.to/x")]) ∧
    ((publish_article
        (publish_article emptyStatus artMD capBonly false 100).status
        artMD capBonly false 200).attempted = []) :=
  ⟨rfl, rfl, rfl⟩

/-- C2. A network-level error raised by medium's unguarded `requests.post`
propagates as an exception out of the dispatcher: the dispatch loop aborts,
the sibling devto target is never attempted, and no ledger merge happens —
the failure is not recorded as data, contrary to the claim. -/
theorem c2_network_error_escapes_dispatcher :
    publish_article_exc emptyStatus artMD capMediumRaises false 100
      = .error "ConnectionError" := rfl

/-- C3 counterexample. `mark_published` overwrites `published_at` with the
current time on every call: after a second non-empty merge for day 3 the
stored timestamp (200) differs from the one stored by the first merge
(100), refuting the set-once claim. -/
theorem c3_published_at_overwritten :
    (dictGet (mark_published
        (mark_published emptyStatus 3 ["devto"] [("devto", "u1")] 100)
        3 ["devto", "hashnode"] [("devto", "u1")] 200).published 3).map
      PubRecord.published_at
    ≠ (dictGet (mark_published emptyStatus 3 ["devto"] [("devto", "u1")] 100).published 3).map
      PubRecord.published_at := by decide

/-- C3 amended. `published_at` records the time of the most recent merge
for the day: every `mark_published` call replaces the day's record
wholesale, storing the platforms, the call's timestamp and the urls it was
given. -/
theorem c3_published_at_is_last_merge_time (s : Status) (d : Nat)
    (ps : List String) (us : List (String × String)) (now : Nat) :
    dictGet (mark_published s d ps us now).published d
      = some { platforms := ps, published_at := now, urls := us } :=
  dictGet_dictSet s.published d _

/-- C4. A dispatch in which every target attempt fails still creates a
ledger record for the day (the unconditional `mark_published` writes the
full platform list with zero urls), and because that record lists every
configured platform the day is NOT selected for catch-up on a later run —
contrary to the claim that a zero-success dispatch creates no record and
leaves the day due. -/
theorem c4_record_created_with_zero_successes :
    ((dictGet (publish_article emptyStatus artMD capNone false 100).status.published 1).isSome
        = true) ∧
    ((dictGet (publish_article emptyStatus artMD capNone false 100).status.published 1).map
        PubRecord.urls = some []) ∧
    (get_todays_articles [artMD]
        { start_date := 10, every_other_day := false }
        (publish_article emptyStatus artMD capNone false 100).status 20 = []) :=
  ⟨rfl, rfl, rfl⟩

/-- C5 counterexample. With day 1's record listing only devto while the
article targets medium and devto, `cmd_status` prints the same ✅
published marker it prints for a fully published day, even though
`is_published` over the full target set is false — the report does not
distinguish partially from fully published and lists no pending targets. -/
theorem c5_report_conflates_states :
    (cmd_status_marker stOneOfTwo { start_date := 10, every_other_day := false }
        20 artMD = StatusMarker.published) ∧
    (is_published stOneOfTwo 1 (some ["medium", "devto"]) = false) :=
  ⟨rfl, rfl⟩

/-- C5 amended. The status report distinguishes only whether a day has any
ledger record: a day with a record is shown with the published marker
regardless of which of its targets are done, and a day without a record is
classified as overdue, due today or upcoming by its scheduled date;
partially and fully published days are conflated. -/
theorem c5_marker_tracks_record_existence (status : Status) (config : Config)
    (today : Nat) (a : Article) :
    (cmd_status_marker status config today a = StatusMarker.published
      ↔ (dictGet status.published a.day).isSome = true) ∧
    (dictGet status.published a.day = none →
      ((cmd_status_marker status config today a = StatusMarker.overdue
        ↔ get_publish_date a.day config < today) ∧
       (cmd_status_marker status config today a = StatusMarker.todayDue
        ↔ get_publish_date a.day config = today) ∧
       (cmd_status_marker status config today a = StatusMarker.upcoming
        ↔ today < get_publish_date a.day config))) := by
  constructor
  · unfold cmd_status_marker
    split_ifs with h1 h2 h3 <;> simp_all
  · intro hnone
    unfold cmd_status_marker
    rw [hnone]
    simp only [Option.isSome_none, Bool.false_eq_true, if_false]
    split_ifs with h2 h3 <;> refine ⟨?_, ?_, ?_⟩ <;> simp_all <;> omega

/-- C5 witness: the amended theorem applied to a fresh ledger and the
day-1 article (scheduled at ordinal 10), at a today of 20 (overdue), 10
(due today) and 5 (upcoming). -/
theorem c5_marker_witness :
    (cmd_status_marker emptyStatus { start_date := 10, every_other_day := false }
        20 artMD = StatusMarker.published
      ↔ (dictGet emptyStatus.published artMD.day).isSome = true) ∧
    (cmd_status_marker emptyStatus { start_date := 10, every_other_day := false }
        20 artMD = StatusMarker.overdue
      ↔ get_publish_date artMD.day { start_date := 10, every_other_day := false } < 20) ∧
    (cmd_status_marker emptyStatus { start_date := 10, every_other_day := false }
        10 artMD = StatusMarker.todayDue
      ↔ get_publish_date artMD.day { start_date := 10, every_other_day := false } = 10) ∧
    (cmd_status_marker emptyStatus { start_date := 10, every_other_day := false }
        5 artMD = StatusMarker.upcoming
      ↔ 5 < get_publish_date artMD.day { start_date := 10, every_other_day := false }) :=
  ⟨(c5_marker_tracks_record_existence emptyStatus
      { start_date := 10, every_other_day := false } 20 artMD).1,
   ((c5_marker_tracks_record_existence emptyStatus
      { start_date := 10, every_other_day := false } 20 artMD).2 rfl).1,
   ((c5_marker_tracks_record_existence emptyStatus
      { start_date := 10, every_other_day := false } 10 artMD).2 rfl).2.1,
   ((c5_marker_tracks_record_existence emptyStatus
      { start_date := 10, every_other_day := false } 5 artMD).2 rfl).2.2⟩

/-- C6. Catch-up inclusion: an item with configured targets `ps` whose
resolved date is strictly before today is included in the catch-up part of
the selection whenever some configured target is not in the day's
done-platform list, and is excluded from the whole selection once the
done-platform list is set-equal to `ps`. -/
theorem c6_catchup_inclusion (articles : List Article) (config : Config)
    (status : Status) (today : Nat) (a : Article) (ps : List String)
    (hps : a.platforms = some ps) (hne : ps ≠ []) (hmem : a ∈ articles)
    (hdue : get_publish_date a.day config < today) :
    ((∃ p ∈ ps, p ∉ get_published_platforms status a.day) →
        a ∈ catchup_filter articles config status today) ∧
    ((∀ p, p ∈ ps ↔ p ∈ get_published_platforms status a.day) →
        a ∉ get_todays_articles articles config status today) := by
  constructor
  · rintro ⟨p, hp, hnotdone⟩
    rw [catchup_filter, List.mem_filter]
    refine ⟨hmem, ?_⟩
    rw [hps, Bool.and_eq_true, Bool.not_eq_true']
    exact ⟨decide_eq_true hdue,
      is_published_false_of_missing status a.day ps p hp hnotdone⟩
  · intro hset
    rw [get_todays_articles, List.mem_append]
    rintro (hc | ht)
    · rw [catchup_filter, List.mem_filter] at hc
      have hpred := hc.2
      rw [hps, Bool.and_eq_true, Bool.not_eq_true'] at hpred
      have hpub : is_published status a.day (some ps) = true :=
        is_published_true_of_done status a.day ps hne
          (fun p hp => (hset p).mp hp)
      rw [hpub] at hpred
      exact absurd hpred.2 (by simp)
    · rw [todays_filter, List.mem_filter] at ht
      have heq := ht.2
      rw [beq_iff_eq] at heq
      omega

/-- C6 witness: day 4 (scheduled at ordinal 11, today 14 = schedule + 3,
daily cadence) with only devto done is selected for catch-up; with devto
and hashnode both done it is excluded. -/
theorem c6_witness :
    (artW ∈ catchup_filter [artW] { start_date := 10, every_other_day := false }
        stHalfDone 14) ∧
    (artW ∉ get_todays_articles [artW] { start_date := 10, every_other_day := false }
        stAllDone 14) :=
  ⟨(c6_catchup_inclusion [artW] { start_date := 10, every_other_day := false }
      stHalfDone 14 artW ["devto", "hashnode"] rfl (by decide) (by decide)
      (by decide)).1 ⟨"hashnode", by decide, by decide⟩,
   (c6_catchup_inclusion [artW] { start_date := 10, every_other_day := false }
      stAllDone 14 artW ["devto", "hashnode"] rfl (by decide) (by decide)
      (by decide)).2 (fun p => Iff.rfl)⟩

/-- C7. Idempotence of dispatch: a second dispatch of the same item with
no ledger reset leaves the ledger exactly as the first call left it and
attempts zero targets; and when the remaining set computed from the ledger
is empty, a dispatch returns immediately with the ledger unchanged and no
attempts. -/
theorem c7_dispatch_idempotent (s : Status) (a : Article)
    (cap : String → Option String) (now1 now2 : Nat) (ps : List String)
    (hps : a.platforms.getD defaultPlatforms = ps) :
    (publish_article (publish_article s a cap false now1).status a cap false now2
      = { status := (publish_article s a cap false now1).status,
          attempted := [] }) ∧
    (ps ≠ [] →
      ps.filter (fun p => !((get_published_platforms s a.day).contains p)) = [] →
      publish_article s a cap false now1 = { status := s, attempted := [] }) := by
  subst hps
  constructor
  · cases hip : is_published s a.day (some (a.platforms.getD defaultPlatforms)) with
    | true =>
      rw [publish_article_skip s a cap now1 hip, publish_article_skip s a cap now2 hip]
    | false =>
      obtain ⟨us, hout⟩ := publish_article_marks s a cap now1 hip
      rw [hout]
      exact publish_article_skip _ a cap now2 (is_published_after_mark s a.day _ us now1)
  · intro hne hfilter
    rw [List.filter_eq_nil_iff] at hfilter
    apply publish_article_skip
    apply is_published_true_of_done s a.day _ hne
    intro p hp
    have := hfilter p hp
    rw [Bool.not_eq_true', Bool.not_eq_false] at this
    exact List.elem_iff.mp this

/-- C7 witness: the idempotence equation at a concrete item and oracle,
and the immediate no-op return on a ledger where both targets are done. -/
theorem c7_witness :
    (publish_article (publish_article emptyStatus artMD capBonly false 100).status
        artMD capBonly false 200
      = { status := (publish_article emptyStatus artMD capBonly false 100).status,
          attempted := [] }) ∧
    (publish_article stMDdone artMD capBonly false 300
      = { status := stMDdone, attempted := [] }) :=
  ⟨(c7_dispatch_idempotent emptyStatus artMD capBonly 100 200
      ["medium", "devto"] rfl).1,
   (c7_dispatch_idempotent stMDdone artMD capBonly 300 301
      ["medium", "devto"] rfl).2 (by decide) (by decide)⟩

/-- C8. Schedule resolution: the resolver returns the start ordinal plus
`(d-1)/2`, doubled for every-other-day cadence; it is monotone
non-decreasing in the day number; and with every-other-day cadence and
start date 2026-02-11, days 1 and 2 resolve to 2026-02-11, days 3 and 4 to
2026-02-13 (two calendar days later), and day 5 to 2026-02-15. -/
theorem c8_schedule_resolution (config : Config) (d : Nat) (hd : 1 ≤ d) :
    (get_publish_date d config
      = config.start_date +
          (if config.every_other_day then ((d - 1) / 2) * 2 else (d - 1) / 2)) ∧
    get_publish_date d config ≤ get_publish_date (d + 1) config ∧
    (get_publish_date 1 eodConfig = date2026 2 11 ∧
     get_publish_date 2 eodConfig = date2026 2 11 ∧
     get_publish_date 3 eodConfig = date2026 2 13 ∧
     get_publish_date 4 eodConfig = date2026 2 13 ∧
     get_publish_date 5 eodConfig = date2026 2 15 ∧
     date2026 2 13 = date2026 2 11 + 2 ∧
     date2026 2 15 = date2026 2 11 + 4) := by
  refine ⟨rfl, ?_, by decide⟩
  have hdiv : (d - 1) / 2 ≤ (d + 1 - 1) / 2 := Nat.div_le_div_right (by omega)
  unfold get_publish_date
  cases heod : config.every_other_day with
  | false => simpa [heod] using Nat.add_le_add_left hdiv config.start_date
  | true =>
    simpa [heod] using
      Nat.add_le_add_left (Nat.mul_le_mul_right 2 hdiv) config.start_date

/-- C8 witness: the theorem applied at day 3 under the example
configuration. -/
theorem c8_witness :
    get_publish_date 3 eodConfig ≤ get_publish_date 4 eodConfig :=
  (c8_schedule_resolution eodConfig 3 (by decide)).2.1

/-- C9. Due-set ordering: the selection is the catch-up filter followed by
the today filter; when the content set is sorted by strictly ascending day
number the catch-up part is sorted the same way (so for two incomplete
past due days D1 < D2, D1 appears before D2), and the today part is a
sublist of the content set, i.e. in content-set order. -/
theorem c9_due_set_ordering (articles : List Article) (config : Config)
    (status : Status) (today : Nat)
    (hsorted : articles.Pairwise (fun x y => x.day < y.day)) :
    (get_todays_articles articles config status today
      = catchup_filter articles config status today
          ++ todays_filter articles config today) ∧
    (catchup_filter articles config status today).Pairwise
        (fun x y => x.day < y.day) ∧
    (todays_filter articles config today).Sublist articles := by
  refine ⟨rfl, ?_, ?_⟩
  · exact List.Pairwise.sublist (List.filter_sublist _) hsorted
  · exact List.filter_sublist _

/-- C9 witness: two incomplete past days 4 < 6, both due at today = 14;
the catch-up part preserves their ascending day order. -/
theorem c9_witness :
    ([artW, artW6].Pairwise (fun x y => x.day < y.day)) ∧
    ((catchup_filter [artW, artW6] { start_date := 10, every_other_day := false }
        emptyStatus 14).Pairwise (fun x y => x.day < y.day)) :=
  ⟨by decide,
   (c9_due_set_ordering [artW, artW6] { start_date := 10, every_other_day := false }
      emptyStatus 14 (by decide)).2.1⟩

/-- C10. Dry-run frame effect: with `dry_run` set, `publish_article`
returns before the publish loop and before `mark_published`, so the ledger
is unchanged, zero targets are attempted, and the result does not depend
on the client oracle at all (no capability is invoked). -/
theorem c10_dry_run_no_effect (s : Status) (a : Article)
    (cap cap2 : String → Option String) (now : Nat) :
    ((publish_article s a cap true now).status = s) ∧
    ((publish_article s a cap true now).attempted = []) ∧
    (publish_article s a cap true now = publish_article s a cap2 true now) := by
  have h : ∀ c : String → Option String,
      publish_article s a c true now = { status := s, attempted := [] } := by
    intro c
    unfold publish_article
    simp
  rw [h cap, h cap2]
  exact ⟨rfl, rfl, rfl⟩
